import Mathlib

/-!
Verification development for the context-spore protocol (src/src/lib.rs).

The crate defines a raw carrier `RawContainer { ctx, rss }` holding the owning
context's raw identity and the native resource handle, a lifetime-bound
resource wrapper, and a detached "spore" wrapper.  The `impl_spore!` macro
generates, for each resource kind, the operations

  * `sporulate` : resource → spore (pure carrier move, always succeeds);
  * `sprout`    : spore × context → resource, after
    `assert_eq!(self.0.ctx, as_raw(ctx))` — the assertion failure aborts;
  * `sprout_ref` / `sprout_mut` : the same identity assertion, then a borrow
    of the carrier as a resource view without consuming the spore;

and `spore_convention!` gives every spore type a `Drop` impl that is
unconditionally `unreachable!("Never drop ContextSpore")`.

We embed these shallowly: carriers are records, the abort branch of the
identity assertion becomes `none`, the borrowing operations are modelled as
state passing (result together with the spore state after the call, which the
source never writes to), and the drop guard is a function into `DropOutcome`.
The identity-extraction capability `AsRaw::as_raw` is an abstract function
parameter `as_raw : Ctx → CtxRaw` with decidable equality on raw identities,
exactly the obligations `assert_eq!` imposes on the generated code.
-/

set_option autoImplicit false

namespace ContextSpore

/-- `RawContainer<Ctx, Rss>` from the source: the plain aggregate of the
owning context's raw identity (`ctx`) and the native resource handle (`rss`). -/
structure RawContainer (CtxRaw Rss : Type) where
  ctx : CtxRaw
  rss : Rss
  deriving DecidableEq, Repr

/-- The bound-resource state generated by `impl_spore!`: a transparent wrapper
around the carrier (the phantom context lifetime has no value-level content). -/
structure Resource (CtxRaw Rss : Type) where
  carrier : RawContainer CtxRaw Rss
  deriving DecidableEq, Repr

/-- The detached-token (spore) state generated by `impl_spore!`: a transparent
wrapper around the same carrier, with no lifetime tie. -/
structure Spore (CtxRaw Rss : Type) where
  carrier : RawContainer CtxRaw Rss
  deriving DecidableEq, Repr

/-- `ContextResource::sporulate`: `transmute_copy` of the carrier followed by
`forget` of the consumed resource — a pure move of the carrier, no hardware
call, no field transformation. -/
def sporulate {CtxRaw Rss : Type} (r : Resource CtxRaw Rss) : Spore CtxRaw Rss :=
  ⟨r.carrier⟩

/-- `ContextSpore::sprout`: `assert_eq!(self.0.ctx, as_raw(ctx))`, then the
carrier is moved into a bound resource.  The assertion's failure branch (a
fatal panic in the source) is modelled as `none`. -/
def sprout {Ctx CtxRaw Rss : Type} [DecidableEq CtxRaw] (as_raw : Ctx → CtxRaw)
    (s : Spore CtxRaw Rss) (ctx : Ctx) : Option (Resource CtxRaw Rss) :=
  if s.carrier.ctx = as_raw ctx then some ⟨s.carrier⟩ else none

/-- `ContextSpore::sprout_ref`: the same identity assertion, then the carrier
is reinterpreted (`transmute(&self.0)`) as a shared resource view.  The spore
is taken by shared reference and never written, so the state-passing embedding
returns the resource view (or `none` on the fatal branch) together with the
spore state after the call. -/
def sprout_ref {Ctx CtxRaw Rss : Type} [DecidableEq CtxRaw] (as_raw : Ctx → CtxRaw)
    (s : Spore CtxRaw Rss) (ctx : Ctx) :
    Option (Resource CtxRaw Rss) × Spore CtxRaw Rss :=
  if s.carrier.ctx = as_raw ctx then (some ⟨s.carrier⟩, s) else (none, s)

/-- `ContextSpore::sprout_mut`: the same identity assertion, then the carrier
is reinterpreted (`transmute(&mut self.0)`) as an exclusive resource view.
The operation body itself performs no write to the carrier, so the spore state
after the call equals the input. -/
def sprout_mut {Ctx CtxRaw Rss : Type} [DecidableEq CtxRaw] (as_raw : Ctx → CtxRaw)
    (s : Spore CtxRaw Rss) (ctx : Ctx) :
    Option (Resource CtxRaw Rss) × Spore CtxRaw Rss :=
  if s.carrier.ctx = as_raw ctx then (some ⟨s.carrier⟩, s) else (none, s)

/-- Outcome of running a destructor: either an ordinary completed destruction
or a fatal fast-fail with the panic message. -/
inductive DropOutcome where
  | ok : DropOutcome
  | fatal : String → DropOutcome
  deriving DecidableEq, Repr

/-- The `Drop` impl that `spore_convention!` generates for every spore type:
its body is unconditionally `unreachable!("Never drop ContextSpore")`. -/
def spore_drop {CtxRaw Rss : Type} (_ : Spore CtxRaw Rss) : DropOutcome :=
  DropOutcome.fatal "Never drop ContextSpore"

/-- A concrete context type for witnesses: a pair whose first component is the
raw identity, so distinct context objects can share one identity. -/
def pairId : Nat × Nat → Nat :=
  Prod.fst

end ContextSpore

namespace ContextSpore

/-- Claim C1: whenever the identity captured in a spore's carrier differs from
the identity extracted from the supplied context, each of `sprout`,
`sprout_ref` and `sprout_mut` takes the fatal mismatch branch and returns no
usable resource. -/
theorem C1_mismatch_all_fatal {Ctx CtxRaw Rss : Type} [DecidableEq CtxRaw]
    (as_raw : Ctx → CtxRaw) (s : Spore CtxRaw Rss) (ctx : Ctx)
    (h : s.carrier.ctx ≠ as_raw ctx) :
    sprout as_raw s ctx = none ∧
    (sprout_ref as_raw s ctx).1 = none ∧
    (sprout_mut as_raw s ctx).1 = none := by
  refine ⟨?_, ?_, ?_⟩ <;> simp [sprout, sprout_ref, sprout_mut, h]

/-- Witness for C1 at a concrete mismatching input. -/
theorem C1_mismatch_all_fatal_witness :
    (⟨⟨1, 7⟩⟩ : Spore Nat Nat).carrier.ctx ≠ pairId (2, 0) ∧
    (sprout pairId (⟨⟨1, 7⟩⟩ : Spore Nat Nat) (2, 0) = none ∧
     (sprout_ref pairId (⟨⟨1, 7⟩⟩ : Spore Nat Nat) (2, 0)).1 = none ∧
     (sprout_mut pairId (⟨⟨1, 7⟩⟩ : Spore Nat Nat) (2, 0)).1 = none) :=
  ⟨by decide, C1_mismatch_all_fatal pairId ⟨⟨1, 7⟩⟩ (2, 0) (by decide)⟩

/-- Claim C2: when the resource's captured identity equals the context's
extracted identity, `sprout (sporulate r) ctx` succeeds and the resulting
resource's native handle (`rss`) equals the original's (round-trip identity). -/
theorem C2_roundtrip_handle {Ctx CtxRaw Rss : Type} [DecidableEq CtxRaw]
    (as_raw : Ctx → CtxRaw) (r : Resource CtxRaw Rss) (ctx : Ctx)
    (h : r.carrier.ctx = as_raw ctx) :
    ∃ r2 : Resource CtxRaw Rss,
      sprout as_raw (sporulate r) ctx = some r2 ∧ r2.carrier.rss = r.carrier.rss := by
  refine ⟨⟨r.carrier⟩, ?_, rfl⟩
  simp [sprout, sporulate, h]

/-- Witness for C2 at a concrete matching input. -/
theorem C2_roundtrip_handle_witness :
    (⟨⟨3, 42⟩⟩ : Resource Nat Nat).carrier.ctx = pairId (3, 9) ∧
    (∃ r2 : Resource Nat Nat,
      sprout pairId (sporulate (⟨⟨3, 42⟩⟩ : Resource Nat Nat)) (3, 9) = some r2 ∧
      r2.carrier.rss = (⟨⟨3, 42⟩⟩ : Resource Nat Nat).carrier.rss) :=
  ⟨by decide, C2_roundtrip_handle pairId ⟨⟨3, 42⟩⟩ (3, 9) (by decide)⟩

/-- Claim C3: the `Drop` impl generated for every spore type unconditionally
fails fast with the unreachable-error message; it is never an ordinary
successful destruction. -/
theorem C3_drop_always_fatal {CtxRaw Rss : Type} (s : Spore CtxRaw Rss) :
    spore_drop s = DropOutcome.fatal "Never drop ContextSpore" ∧
    spore_drop s ≠ DropOutcome.ok :=
  ⟨rfl, by simp [spore_drop]⟩

/-- Claim C4: under the matching-identity precondition none of the three
reattach operations can take the fatal branch: each returns a resource
(respectively a resource view). -/
theorem C4_match_infallible {Ctx CtxRaw Rss : Type} [DecidableEq CtxRaw]
    (as_raw : Ctx → CtxRaw) (s : Spore CtxRaw Rss) (ctx : Ctx)
    (h : s.carrier.ctx = as_raw ctx) :
    (∃ r, sprout as_raw s ctx = some r) ∧
    (∃ r, (sprout_ref as_raw s ctx).1 = some r) ∧
    (∃ r, (sprout_mut as_raw s ctx).1 = some r) := by
  refine ⟨⟨⟨s.carrier⟩, ?_⟩, ⟨⟨s.carrier⟩, ?_⟩, ⟨⟨s.carrier⟩, ?_⟩⟩ <;>
    simp [sprout, sprout_ref, sprout_mut, h]

/-- Witness for C4 at a concrete matching input. -/
theorem C4_match_infallible_witness :
    (⟨⟨6, 11⟩⟩ : Spore Nat Nat).carrier.ctx = pairId (6, 2) ∧
    ((∃ r, sprout pairId (⟨⟨6, 11⟩⟩ : Spore Nat Nat) (6, 2) = some r) ∧
     (∃ r, (sprout_ref pairId (⟨⟨6, 11⟩⟩ : Spore Nat Nat) (6, 2)).1 = some r) ∧
     (∃ r, (sprout_mut pairId (⟨⟨6, 11⟩⟩ : Spore Nat Nat) (6, 2)).1 = some r)) :=
  ⟨by decide, C4_match_infallible pairId ⟨⟨6, 11⟩⟩ (6, 2) (by decide)⟩

/-- Claim C5: `sporulate` is total (it is a plain function, so it never fails
and makes no hardware call) and leaves the carrier unchanged field-for-field:
both the captured context identity and the native handle survive the
transition untouched. -/
theorem C5_sporulate_preserves_carrier {CtxRaw Rss : Type} (r : Resource CtxRaw Rss) :
    (sporulate r).carrier = r.carrier ∧
    (sporulate r).carrier.ctx = r.carrier.ctx ∧
    (sporulate r).carrier.rss = r.carrier.rss :=
  ⟨rfl, rfl, rfl⟩

/-- Claim C6: reattachment is governed by identity equality, not reference
equality of context objects: a spore detached from a resource created under
context object A succeeds in `sprout` under a distinct context object B whose
extracted raw identity equals A's. -/
theorem C6_identity_not_reference {Ctx CtxRaw Rss : Type} [DecidableEq CtxRaw]
    (as_raw : Ctx → CtxRaw) (r : Resource CtxRaw Rss) (ctxA ctxB : Ctx)
    (hobj : ctxA ≠ ctxB) (hr : r.carrier.ctx = as_raw ctxA)
    (hid : as_raw ctxB = as_raw ctxA) :
    ∃ r2 : Resource CtxRaw Rss,
      sprout as_raw (sporulate r) ctxB = some r2 ∧
      r2.carrier.rss = r.carrier.rss := by
  refine ⟨⟨r.carrier⟩, ?_, rfl⟩
  simp [sprout, sporulate, hr, hid]

/-- Witness for C6: two distinct context objects sharing identity 5. -/
theorem C6_identity_not_reference_witness :
    ((5, 0) : Nat × Nat) ≠ ((5, 1) : Nat × Nat) ∧
    (⟨⟨5, 42⟩⟩ : Resource Nat Nat).carrier.ctx = pairId (5, 0) ∧
    pairId (5, 1) = pairId (5, 0) ∧
    (∃ r2 : Resource Nat Nat,
      sprout pairId (sporulate (⟨⟨5, 42⟩⟩ : Resource Nat Nat)) (5, 1) = some r2 ∧
      r2.carrier.rss = (⟨⟨5, 42⟩⟩ : Resource Nat Nat).carrier.rss) :=
  ⟨by decide, by decide, by decide,
   C6_identity_not_reference pairId ⟨⟨5, 42⟩⟩ (5, 0) (5, 1)
     (by decide) (by decide) (by decide)⟩

/-- Claim C7: on an identity match the borrowing reattach operations succeed
without consuming the spore: the spore state after `sprout_ref` and after
`sprout_mut` equals the input spore, carrier and all, and each yields the
resource view over that same carrier. -/
theorem C7_borrow_frame {Ctx CtxRaw Rss : Type} [DecidableEq CtxRaw]
    (as_raw : Ctx → CtxRaw) (s : Spore CtxRaw Rss) (ctx : Ctx)
    (h : s.carrier.ctx = as_raw ctx) :
    (sprout_ref as_raw s ctx).2 = s ∧
    (sprout_mut as_raw s ctx).2 = s ∧
    (sprout_ref as_raw s ctx).1 = some ⟨s.carrier⟩ ∧
    (sprout_mut as_raw s ctx).1 = some ⟨s.carrier⟩ := by
  refine ⟨?_, ?_, ?_, ?_⟩ <;> simp [sprout_ref, sprout_mut, h]

/-- Witness for C7 at a concrete matching input. -/
theorem C7_borrow_frame_witness :
    (⟨⟨4, 8⟩⟩ : Spore Nat Nat).carrier.ctx = pairId (4, 3) ∧
    ((sprout_ref pairId (⟨⟨4, 8⟩⟩ : Spore Nat Nat) (4, 3)).2 = ⟨⟨4, 8⟩⟩ ∧
     (sprout_mut pairId (⟨⟨4, 8⟩⟩ : Spore Nat Nat) (4, 3)).2 = ⟨⟨4, 8⟩⟩ ∧
     (sprout_ref pairId (⟨⟨4, 8⟩⟩ : Spore Nat Nat) (4, 3)).1 =
       some ⟨(⟨⟨4, 8⟩⟩ : Spore Nat Nat).carrier⟩ ∧
     (sprout_mut pairId (⟨⟨4, 8⟩⟩ : Spore Nat Nat) (4, 3)).1 =
       some ⟨(⟨⟨4, 8⟩⟩ : Spore Nat Nat).carrier⟩) :=
  ⟨by decide, C7_borrow_frame pairId ⟨⟨4, 8⟩⟩ (4, 3) (by decide)⟩

/-- Claim C8: whether a reattach operation succeeds or takes the fatal branch
depends only on the captured context identity versus the supplied context's
identity, never on the native handle: two spores differing only in their
`rss` field succeed or fail together against any context. -/
theorem C8_handle_irrelevant_to_check {Ctx CtxRaw Rss : Type} [DecidableEq CtxRaw]
    (as_raw : Ctx → CtxRaw) (c : CtxRaw) (r1 r2 : Rss) (ctx : Ctx) :
    ((sprout as_raw (⟨⟨c, r1⟩⟩ : Spore CtxRaw Rss) ctx).isSome =
       (sprout as_raw (⟨⟨c, r2⟩⟩ : Spore CtxRaw Rss) ctx).isSome) ∧
    ((sprout_ref as_raw (⟨⟨c, r1⟩⟩ : Spore CtxRaw Rss) ctx).1.isSome =
       (sprout_ref as_raw (⟨⟨c, r2⟩⟩ : Spore CtxRaw Rss) ctx).1.isSome) ∧
    ((sprout_mut as_raw (⟨⟨c, r1⟩⟩ : Spore CtxRaw Rss) ctx).1.isSome =
       (sprout_mut as_raw (⟨⟨c, r2⟩⟩ : Spore CtxRaw Rss) ctx).1.isSome) := by
  by_cases h : c = as_raw ctx <;>
    simp [sprout, sprout_ref, sprout_mut, h]

/-- Claim C9: on an identity match, detaching the resource obtained from a
consuming reattach gives back the very spore: `sporulate` after `sprout` is
the identity on the token, carrier field-for-field. -/
theorem C9_sprout_sporulate_id {Ctx CtxRaw Rss : Type} [DecidableEq CtxRaw]
    (as_raw : Ctx → CtxRaw) (s : Spore CtxRaw Rss) (ctx : Ctx)
    (h : s.carrier.ctx = as_raw ctx) :
    Option.map sporulate (sprout as_raw s ctx) = some s := by
  simp [sprout, sporulate, h]

/-- Witness for C9 at a concrete matching input. -/
theorem C9_sprout_sporulate_id_witness :
    (⟨⟨9, 13⟩⟩ : Spore Nat Nat).carrier.ctx = pairId (9, 4) ∧
    Option.map sporulate (sprout pairId (⟨⟨9, 13⟩⟩ : Spore Nat Nat) (9, 4)) =
      some ⟨⟨9, 13⟩⟩ :=
  ⟨by decide, C9_sprout_sporulate_id pairId ⟨⟨9, 13⟩⟩ (9, 4) (by decide)⟩

end ContextSpore
